import Mathlib

/-!
# jescx: the embedded-script bridge of `src/src/foo_lib.c`

A shallow embedding of `commonjs_module_data_to_function`, `easy_context` and
`call_foo` (src/src/foo_lib.c) and of the gnu/linux branch of
`src/include/ld_magic.h`.

The script engine (QuickJS, `quickjs.h`) is an external library: it is taken
as a parameter `Engine σ`, an arbitrary deterministic state machine over a
state type `σ`, one transition per API function the source calls.  Every call
the C code makes is appended to a record (`World.log`) with its arguments and
its result, so that statements such as "no evaluation is attempted" or "the
callable is called once with these arguments" are statements about that record.

Not modelled: the text written to stdout by `printf`/`puts` and the native
heap buffer `module_function_name` (`asprintf`/`free`), which hold no engine
handle.  The engine calls made while building the `printf` arguments are kept.
-/

namespace Jescx

/-! ## Values and pointers -/

/-- JSValue of quickjs.h, seen through its tag: an immediate 32-bit integer
(JS_TAG_INT), a number stored as a double (JS_TAG_FLOAT64) whose value is the integer
`v`, JS_UNDEFINED, JS_EXCEPTION, or any other value (object, function, string,
symbol, ...) identified by an abstract heap reference. -/
inductive JSValue where
  | int32 (v : Int)
  | float64 (v : Int)
  | undefined
  | exception
  | heap (id : Nat)
  deriving DecidableEq, Repr

/-- A C pointer `JSRuntime *`: `none` is NULL. -/
abbrev JSRuntimePtr := Option Nat
/-- A C pointer `JSContext *`: `none` is NULL. -/
abbrev JSContextPtr := Option Nat
/-- A C pointer `const uint8_t *`: `none` is NULL. -/
abbrev DataPtr := Option Nat
/-- A C string `const char *` returned by the engine: `none` is NULL. -/
abbrev CString := Option String

/-- JS_UNDEFINED of quickjs.h. -/
def JS_UNDEFINED : JSValue := JSValue.undefined

/-- JS_EXCEPTION of quickjs.h. -/
def JS_EXCEPTION : JSValue := JSValue.exception

/-- JS_IsException of quickjs.h: a test on the tag. -/
def JS_IsException (v : JSValue) : Bool :=
  match v with
  | JSValue.exception => true
  | _ => false

/-- JS_IsUndefined of quickjs.h: a test on the tag. -/
def JS_IsUndefined (v : JSValue) : Bool :=
  match v with
  | JSValue.undefined => true
  | _ => false

/-- JS_NewInt32 of quickjs.h: an inline constructor of an immediate integer value; it
does not touch the context. -/
def JS_NewInt32 (_ctx : JSContextPtr) (val : Int) : JSValue := JSValue.int32 val

/-- JS_EVAL_TYPE_GLOBAL of quickjs.h. -/
def JS_EVAL_TYPE_GLOBAL : Nat := 0

/-- The cast `(int32_t) x` of a native integer: reduction into `[-2^31, 2^31)`. -/
def int32_cast (x : Int) : Int := (x + 2 ^ 31) % 2 ^ 32 - 2 ^ 31

/-- Number of values of `size_t` (64-bit). -/
def SIZE_MODULUS : Nat := 2 ^ 64

/-- Subtraction of two `size_t` values: unsigned, modulo `2^64`. -/
def size_sub (a b : Nat) : Nat := (a % SIZE_MODULUS + SIZE_MODULUS - b % SIZE_MODULUS) % SIZE_MODULUS

/-! ## The resource locator of ld_magic.h (gnu/linux ld branch) -/

/-- The two linker symbols `_binary_NAME_start` and `_binary_NAME_end` that
`EXTLD(NAME)` declares: the addresses bounding the embedded payload. -/
structure EmbeddedSymbols where
  binary_start : Nat
  binary_end : Nat
  deriving DecidableEq, Repr

/-- LDVAR(NAME): the start symbol, an array, hence a non-null pointer. -/
def LDVAR (sym : EmbeddedSymbols) : DataPtr := some sym.binary_start

/-- LDLEN(NAME): `(_binary_NAME_end) - (_binary_NAME_start)`, a pointer difference,
here already converted to the `size_t` parameter it is passed as. -/
def LDLEN (sym : EmbeddedSymbols) : Nat :=
  (((sym.binary_end : Int) - (sym.binary_start : Int)) % (SIZE_MODULUS : Int)).toNat

/-! ## The engine and the record of calls -/

/-- One entry of the record: an engine API call with its arguments and result.  The
source never calls the four `JS_Free*` operations; they are the vocabulary in which
a release would be recorded.  `libc_free` is the C library `free` applied to an
engine pointer. -/
inductive Event where
  | JS_NewRuntime (ret : JSRuntimePtr)
  | JS_NewContext (rt : JSRuntimePtr) (ret : JSContextPtr)
  | libc_free (p : Option Nat)
  | JS_GetGlobalObject (ctx : JSContextPtr) (ret : JSValue)
  | JS_Eval (ctx : JSContextPtr) (input : DataPtr) (input_len : Nat) (filename : String)
      (eval_flags : Nat) (ret : JSValue)
  | JS_GetException (ctx : JSContextPtr) (ret : JSValue)
  | JS_ToCString (ctx : JSContextPtr) (val : JSValue) (ret : CString)
  | JS_GetPropertyStr (ctx : JSContextPtr) (this_obj : JSValue) (prop : String) (ret : JSValue)
  | JS_Call (ctx : JSContextPtr) (func_obj : JSValue) (this_obj : JSValue) (argc : Nat)
      (argv : List JSValue) (ret : JSValue)
  | JS_ToInt32 (ctx : JSContextPtr) (pres_before : Int) (val : JSValue) (rc : Int)
      (pres_after : Int)
  | JS_FreeValue (ctx : JSContextPtr) (v : JSValue)
  | JS_FreeCString (ctx : JSContextPtr) (s : CString)
  | JS_FreeContext (ctx : JSContextPtr)
  | JS_FreeRuntime (rt : JSRuntimePtr)
  deriving DecidableEq, Repr

/-- The engine as the source uses it: one state transition per API function.
`JS_ToInt32` receives the current content of the output slot `*pres` and returns the
return code together with the content of the slot afterwards, so that an engine may
leave the slot untouched or overwrite it, on success as on failure.  `JS_Call` gets
`argc` and the array `argv` (NULL is the empty list). -/
structure Engine (σ : Type) where
  JS_NewRuntime : σ → JSRuntimePtr × σ
  JS_NewContext : σ → JSRuntimePtr → JSContextPtr × σ
  JS_GetGlobalObject : σ → JSContextPtr → JSValue × σ
  JS_Eval : σ → JSContextPtr → DataPtr → Nat → String → Nat → JSValue × σ
  JS_GetException : σ → JSContextPtr → JSValue × σ
  JS_ToCString : σ → JSContextPtr → JSValue → CString × σ
  JS_GetPropertyStr : σ → JSContextPtr → JSValue → String → JSValue × σ
  JS_Call : σ → JSContextPtr → JSValue → JSValue → Nat → List JSValue → JSValue × σ
  JS_ToInt32 : σ → JSContextPtr → Int → JSValue → (Int × Int) × σ

/-- The state the C code runs in: the engine state and the record of calls so far. -/
structure World (σ : Type) where
  eng : σ
  log : List Event

/-- A world with an empty record. -/
def World.init {σ : Type} (s : σ) : World σ := ⟨s, []⟩

variable {σ : Type}

/-- Call of JS_NewRuntime, recorded. -/
def JS_NewRuntime (E : Engine σ) (w : World σ) : JSRuntimePtr × World σ :=
  let r := E.JS_NewRuntime w.eng
  (r.1, ⟨r.2, w.log ++ [Event.JS_NewRuntime r.1]⟩)

/-- Call of JS_NewContext, recorded. -/
def JS_NewContext (E : Engine σ) (w : World σ) (rt : JSRuntimePtr) : JSContextPtr × World σ :=
  let r := E.JS_NewContext w.eng rt
  (r.1, ⟨r.2, w.log ++ [Event.JS_NewContext rt r.1]⟩)

/-- Call of the C library free on an engine pointer, recorded; the engine is not told. -/
def libc_free (w : World σ) (p : Option Nat) : World σ :=
  ⟨w.eng, w.log ++ [Event.libc_free p]⟩

/-- Call of JS_GetGlobalObject, recorded. -/
def JS_GetGlobalObject (E : Engine σ) (w : World σ) (ctx : JSContextPtr) : JSValue × World σ :=
  let r := E.JS_GetGlobalObject w.eng ctx
  (r.1, ⟨r.2, w.log ++ [Event.JS_GetGlobalObject ctx r.1]⟩)

/-- Call of JS_Eval, recorded. -/
def JS_Eval (E : Engine σ) (w : World σ) (ctx : JSContextPtr) (input : DataPtr) (input_len : Nat)
    (filename : String) (eval_flags : Nat) : JSValue × World σ :=
  let r := E.JS_Eval w.eng ctx input input_len filename eval_flags
  (r.1, ⟨r.2, w.log ++ [Event.JS_Eval ctx input input_len filename eval_flags r.1]⟩)

/-- Call of JS_GetException, recorded. -/
def JS_GetException (E : Engine σ) (w : World σ) (ctx : JSContextPtr) : JSValue × World σ :=
  let r := E.JS_GetException w.eng ctx
  (r.1, ⟨r.2, w.log ++ [Event.JS_GetException ctx r.1]⟩)

/-- Call of JS_ToCString, recorded. -/
def JS_ToCString (E : Engine σ) (w : World σ) (ctx : JSContextPtr) (val : JSValue) :
    CString × World σ :=
  let r := E.JS_ToCString w.eng ctx val
  (r.1, ⟨r.2, w.log ++ [Event.JS_ToCString ctx val r.1]⟩)

/-- Call of JS_GetPropertyStr, recorded. -/
def JS_GetPropertyStr (E : Engine σ) (w : World σ) (ctx : JSContextPtr) (this_obj : JSValue)
    (prop : String) : JSValue × World σ :=
  let r := E.JS_GetPropertyStr w.eng ctx this_obj prop
  (r.1, ⟨r.2, w.log ++ [Event.JS_GetPropertyStr ctx this_obj prop r.1]⟩)

/-- Call of JS_Call, recorded. -/
def JS_Call (E : Engine σ) (w : World σ) (ctx : JSContextPtr) (func_obj this_obj : JSValue)
    (argc : Nat) (argv : List JSValue) : JSValue × World σ :=
  let r := E.JS_Call w.eng ctx func_obj this_obj argc argv
  (r.1, ⟨r.2, w.log ++ [Event.JS_Call ctx func_obj this_obj argc argv r.1]⟩)

/-- Call of JS_ToInt32 on the slot holding `pres`, recorded: the return code and the
content of the slot afterwards. -/
def JS_ToInt32 (E : Engine σ) (w : World σ) (ctx : JSContextPtr) (pres : Int) (val : JSValue) :
    (Int × Int) × World σ :=
  let r := E.JS_ToInt32 w.eng ctx pres val
  (r.1, ⟨r.2, w.log ++ [Event.JS_ToInt32 ctx pres val r.1.1 r.1.2]⟩)

/-! ## The functions of foo_lib.c -/

/-- The loader `commonjs_module_data_to_function` of foo_lib.c, lines 11-60.
`asprintf(&module_function_name, "require_%s", function_name)` is the string
`"require_" ++ function_name`. -/
def commonjs_module_data_to_function (E : Engine σ) (w : World σ) (ctx : JSContextPtr)
    (data : DataPtr) (data_length : Nat) (function_name : String) : JSValue × World σ :=
  match data with
  | none => (JS_UNDEFINED, w)
  | some p =>
    let ev := JS_Eval E w ctx (some p) (size_sub data_length 1) "<embed>" JS_EVAL_TYPE_GLOBAL
    if JS_IsException ev.1 then
      -- the arguments of the second printf: JS_ToCString(ctx, JS_GetException(ctx))
      let ex := JS_GetException E ev.2 ctx
      let cs := JS_ToCString E ex.2 ctx ex.1
      (JS_UNDEFINED, cs.2)
    else
      let global := JS_GetGlobalObject E ev.2 ctx
      let module_function_name := "require_" ++ function_name
      let module := JS_GetPropertyStr E global.2 ctx global.1 module_function_name
      if JS_IsException module.1 then
        (JS_UNDEFINED, module.2)
      else
        let result := JS_Call E module.2 ctx module.1 global.1 0 []
        if JS_IsException result.1 then
          (JS_UNDEFINED, result.2)
        else
          result

/-- The helper `easy_context` of foo_lib.c, lines 63-84. -/
def easy_context (E : Engine σ) (w : World σ) : JSContextPtr × World σ :=
  let runtime := JS_NewRuntime E w
  match runtime.1 with
  | none => (none, runtime.2)
  | some rt =>
    let ctx := JS_NewContext E runtime.2 (some rt)
    match ctx.1 with
    | none => (none, libc_free ctx.2 (some rt))
    | some c => (some c, ctx.2)

/-- The entry point `call_foo` of foo_lib.c, lines 87-134, over the linker symbols of the
embedded resource `my_foo_lib_mjs`.  The native `int` arguments are integers; the
result is the `int32_t` slot `c_result`. -/
def call_foo (E : Engine σ) (sym : EmbeddedSymbols) (w : World σ) (bar baz : Int) :
    Int × World σ :=
  let ctx := easy_context E w
  let global := JS_GetGlobalObject E ctx.2 ctx.1
  let foo_fn := commonjs_module_data_to_function E global.2 ctx.1 (LDVAR sym) (LDLEN sym) "foo"
  if JS_IsUndefined foo_fn.1 then
    (-1, foo_fn.2)
  else
    let args : List JSValue :=
      [JS_NewInt32 ctx.1 (int32_cast bar), JS_NewInt32 ctx.1 (int32_cast baz)]
    let js_result := JS_Call E foo_fn.2 ctx.1 foo_fn.1 global.1 args.length args
    if JS_IsUndefined js_result.1 then
      (-1, js_result.2)
    else
      let c_result : Int := -1
      let conv := JS_ToInt32 E js_result.2 ctx.1 c_result js_result.1
      (conv.1.2, conv.2)

/-! ## Reading the record -/

/-- The entry is an evaluation (JS_Eval). -/
def Event.isEval : Event → Bool
  | Event.JS_Eval _ _ _ _ _ _ => true
  | _ => false

/-- The entry is a property lookup (JS_GetPropertyStr). -/
def Event.isLookup : Event → Bool
  | Event.JS_GetPropertyStr _ _ _ _ => true
  | _ => false

/-- The entry is a call of a script value (JS_Call). -/
def Event.isCall : Event → Bool
  | Event.JS_Call _ _ _ _ _ _ => true
  | _ => false

/-- The entry is a conversion to a native integer (JS_ToInt32). -/
def Event.isConversion : Event → Bool
  | Event.JS_ToInt32 _ _ _ _ _ => true
  | _ => false

/-- The entry is an engine operation on the given context pointer. -/
def Event.usesContext (c : JSContextPtr) : Event → Bool
  | Event.JS_GetGlobalObject ctx _ => ctx == c
  | Event.JS_Eval ctx _ _ _ _ _ => ctx == c
  | Event.JS_GetException ctx _ => ctx == c
  | Event.JS_ToCString ctx _ _ => ctx == c
  | Event.JS_GetPropertyStr ctx _ _ _ => ctx == c
  | Event.JS_Call ctx _ _ _ _ _ => ctx == c
  | Event.JS_ToInt32 ctx _ _ _ _ => ctx == c
  | Event.JS_FreeValue ctx _ => ctx == c
  | Event.JS_FreeCString ctx _ => ctx == c
  | Event.JS_FreeContext ctx => ctx == c
  | _ => false

/-- An engine handle that its holder owns and has to release: a runtime, a context, a
reference-counted value, or a C string obtained from the engine. -/
inductive Handle where
  | runtime (p : Nat)
  | context (p : Nat)
  | value (id : Nat)
  | cstring (s : String)
  deriving DecidableEq, Repr

/-- The handle a value carries: immediate values (integers, undefined, the exception
marker) carry none. -/
def valueHandle : JSValue → List Handle
  | JSValue.heap id => [Handle.value id]
  | _ => []

/-- Handles an entry of the record hands to the caller. -/
def Event.acquires : Event → List Handle
  | Event.JS_NewRuntime (some r) => [Handle.runtime r]
  | Event.JS_NewContext _ (some c) => [Handle.context c]
  | Event.JS_GetGlobalObject _ ret => valueHandle ret
  | Event.JS_Eval _ _ _ _ _ ret => valueHandle ret
  | Event.JS_GetException _ ret => valueHandle ret
  | Event.JS_ToCString _ _ (some s) => [Handle.cstring s]
  | Event.JS_GetPropertyStr _ _ _ ret => valueHandle ret
  | Event.JS_Call _ _ _ _ _ ret => valueHandle ret
  | _ => []

/-- Handles an entry of the record gives back through an engine release operation. -/
def Event.releases : Event → List Handle
  | Event.JS_FreeValue _ v => valueHandle v
  | Event.JS_FreeCString _ (some s) => [Handle.cstring s]
  | Event.JS_FreeContext (some c) => [Handle.context c]
  | Event.JS_FreeRuntime (some r) => [Handle.runtime r]
  | _ => []

/-- All handles acquired over a record, in order. -/
def acquired : List Event → List Handle
  | [] => []
  | e :: es => e.acquires ++ acquired es

/-- All handles released through the engine over a record, in order. -/
def released : List Event → List Handle
  | [] => []
  | e :: es => e.releases ++ released es

/-- Handles acquired and not released at the end of a record. -/
def dangling (log : List Event) : List Handle := (acquired log).diff (released log)

/-! ## An example engine

A small deterministic engine that answers like QuickJS on the calls the bridge
makes.  Its state is the list of global names bound so far.  Reference 0 is the
global object, 1 the factory bound by the payload, 2 the function the factory
returns, 3 the pending exception object.  It is used to instantiate the general
statements and to evaluate the code on concrete runs. -/

/-- What the example engine is configured with. -/
structure Toy where
  /-- JS_NewRuntime succeeds -/
  runtimeOk : Bool
  /-- JS_NewContext succeeds -/
  contextOk : Bool
  /-- the payload is valid script source -/
  parses : Bool
  /-- the global names the payload binds, each to the factory -/
  defines : List String
  /-- the value the factory returns -/
  factory : JSValue
  /-- the function behind reference 2, on two integer arguments -/
  fn : Int → Int → JSValue

/-- The example engine.  As in QuickJS, JS_ToInt32 converts an integer to itself, a
double to its value reduced into the 32-bit range and undefined to 0; an object or a
function (references other than 4) converts to 0, being not a number; on the exception
marker and on a symbol (reference 4) it stores 0 and returns -1.  Calling a value that
is not a function yields the exception marker.  The example engine answers on a NULL
context as on a valid one, where QuickJS would dereference the pointer: on such runs
only the record of the calls made is of interest. -/
def toyEngine (t : Toy) : Engine (List String) where
  JS_NewRuntime := fun s => (if t.runtimeOk then some 100 else none, s)
  JS_NewContext := fun s _ => (if t.contextOk then some 200 else none, s)
  JS_GetGlobalObject := fun s _ => (JSValue.heap 0, s)
  JS_Eval := fun s _ _ _ _ _ =>
    if t.parses then (JSValue.undefined, t.defines ++ s) else (JSValue.exception, s)
  JS_GetException := fun s _ => (JSValue.heap 3, s)
  JS_ToCString := fun s _ _ => (some "SyntaxError", s)
  JS_GetPropertyStr := fun s _ _ prop =>
    (if s.contains prop then JSValue.heap 1 else JSValue.undefined, s)
  JS_Call := fun s _ func_obj _ _ argv =>
    match func_obj, argv with
    | JSValue.heap 1, [] => (t.factory, s)
    | JSValue.heap 2, [JSValue.int32 a, JSValue.int32 b] => (t.fn a b, s)
    | _, _ => (JSValue.exception, s)
  JS_ToInt32 := fun s _ _ val =>
    match val with
    | JSValue.int32 n => ((0, n), s)
    | JSValue.float64 v => ((0, int32_cast v), s)
    | JSValue.undefined => ((0, 0), s)
    | JSValue.exception => ((-1, 0), s)
    | JSValue.heap 4 => ((-1, 0), s)
    | JSValue.heap _ => ((0, 0), s)

/-- A well-formed build: the payload binds `require_foo` to a factory returning the
function `fn`. -/
def goodToy (fn : Int → Int → JSValue) : Toy :=
  { runtimeOk := true, contextOk := true, parses := true, defines := ["require_foo"],
    factory := JSValue.heap 2, fn := fn }

/-- The script function `function(a,b){return a+b;}` on integer arguments: the sum is
an immediate integer when it fits 32 bits and a double otherwise. -/
def addFn (a b : Int) : JSValue :=
  if -2 ^ 31 ≤ a + b ∧ a + b < 2 ^ 31 then JSValue.int32 (a + b) else JSValue.float64 (a + b)

/-- Linker symbols of a 40-byte payload (39 bytes of source and the trailing sentinel). -/
def sym40 : EmbeddedSymbols := { binary_start := 4096, binary_end := 4136 }

/-- Linker symbols of an empty payload: the end symbol coincides with the start symbol. -/
def symEmpty : EmbeddedSymbols := { binary_start := 4096, binary_end := 4096 }

/-! ## Theorems -/

/-- C2: with a null data pointer the loader returns the failure value JS_UNDEFINED and
leaves both the engine state and the record of engine calls exactly as they were: no
evaluation, no global lookup and no call is made. -/
theorem C2_null_data_fails_without_engine_operation (E : Engine σ) (w : World σ)
    (ctx : JSContextPtr) (data_length : Nat) (function_name : String) :
    (commonjs_module_data_to_function E w ctx none data_length function_name).1 = JS_UNDEFINED ∧
    (commonjs_module_data_to_function E w ctx none data_length function_name).2.log = w.log ∧
    (commonjs_module_data_to_function E w ctx none data_length function_name).2.eng = w.eng :=
  ⟨rfl, rfl, rfl⟩

/-- C3: when the evaluation of a non-null byte range yields the exception marker, the
loader returns the failure value JS_UNDEFINED (so neither a callable nor the exception
marker), and the only engine calls it makes are the evaluation and the two calls that
fetch and print the pending exception: no property lookup and no call is recorded. -/
theorem C3_eval_exception_fails_without_lookup (E : Engine σ) (w : World σ)
    (ctx : JSContextPtr) (p data_length : Nat) (function_name : String)
    (h : (E.JS_Eval w.eng ctx (some p) (size_sub data_length 1) "<embed>"
            JS_EVAL_TYPE_GLOBAL).1 = JS_EXCEPTION) :
    (commonjs_module_data_to_function E w ctx (some p) data_length function_name).1
        = JS_UNDEFINED ∧
    (commonjs_module_data_to_function E w ctx (some p) data_length function_name).1
        ≠ JS_EXCEPTION ∧
    (∃ exc cs,
      (commonjs_module_data_to_function E w ctx (some p) data_length function_name).2.log
        = w.log ++ [Event.JS_Eval ctx (some p) (size_sub data_length 1) "<embed>"
                      JS_EVAL_TYPE_GLOBAL JS_EXCEPTION,
                    Event.JS_GetException ctx exc,
                    Event.JS_ToCString ctx exc cs]) ∧
    (∀ e ∈ ((commonjs_module_data_to_function E w ctx (some p) data_length
              function_name).2.log).drop w.log.length,
        e.isLookup = false ∧ e.isCall = false) := by
  have hres : (commonjs_module_data_to_function E w ctx (some p) data_length function_name).1
      = JS_UNDEFINED := by
    simp only [JS_EXCEPTION] at h
    simp [commonjs_module_data_to_function, JS_Eval, h, JS_IsException]
  have hlog : (commonjs_module_data_to_function E w ctx (some p) data_length function_name).2.log
        = w.log ++ [Event.JS_Eval ctx (some p) (size_sub data_length 1) "<embed>"
                      JS_EVAL_TYPE_GLOBAL JS_EXCEPTION,
                    Event.JS_GetException ctx (E.JS_GetException
                      (E.JS_Eval w.eng ctx (some p) (size_sub data_length 1) "<embed>"
                        JS_EVAL_TYPE_GLOBAL).2 ctx).1,
                    Event.JS_ToCString ctx (E.JS_GetException
                      (E.JS_Eval w.eng ctx (some p) (size_sub data_length 1) "<embed>"
                        JS_EVAL_TYPE_GLOBAL).2 ctx).1
                      (E.JS_ToCString (E.JS_GetException
                      (E.JS_Eval w.eng ctx (some p) (size_sub data_length 1) "<embed>"
                        JS_EVAL_TYPE_GLOBAL).2 ctx).2 ctx (E.JS_GetException
                      (E.JS_Eval w.eng ctx (some p) (size_sub data_length 1) "<embed>"
                        JS_EVAL_TYPE_GLOBAL).2 ctx).1).1] := by
    simp only [JS_EXCEPTION] at h
    simp [commonjs_module_data_to_function, JS_Eval, JS_GetException, JS_ToCString, h,
      JS_IsException, JS_EXCEPTION]
  refine ⟨hres, ?_, ⟨_, _, hlog⟩, ?_⟩
  · rw [hres]
    decide
  · rw [hlog]
    intro e he
    simp at he
    rcases he with rfl | rfl | rfl <;> exact ⟨rfl, rfl⟩

/-- Witness of C3: on the example engine with a payload that does not parse, the
evaluation yields the exception marker and the loader returns JS_UNDEFINED. -/
theorem C3_witness :
    ((toyEngine { goodToy addFn with parses := false }).JS_Eval [] (some 200) (some 4096)
        (size_sub 40 1) "<embed>" JS_EVAL_TYPE_GLOBAL).1 = JS_EXCEPTION ∧
    (commonjs_module_data_to_function (toyEngine { goodToy addFn with parses := false })
        (World.init []) (some 200) (some 4096) 40 "foo").1 = JS_UNDEFINED :=
  ⟨by decide,
   (C3_eval_exception_fails_without_lookup (toyEngine { goodToy addFn with parses := false })
      (World.init []) (some 200) 4096 40 "foo" (by decide)).1⟩

/-- C7: on a non-null payload and a module name `s`, name the answers of the engine to
the evaluation (`ev`), to the fetch of the global object (`global`), to the lookup of
`"require_" ++ s` on it (`module`) and to the call of that binding with zero arguments
and the global object as receiver (`result`).  If the loader returns anything but the
failure value, then none of `ev`, `module`, `result` is the exception marker, the
returned value is exactly `result`, and the record holds exactly those four calls.
Conversely, when none of the three is the exception marker the loader does make those
four calls and returns exactly `result`.  And if evaluation and lookup do not raise but
the factory call does, the loader returns the failure value. -/
theorem C7_loader_returns_factory_result (E : Engine σ) (w : World σ) (ctx : JSContextPtr)
    (p data_length : Nat) (s : String) (ev global module result : JSValue) (s1 s2 s3 s4 : σ)
    (hev : E.JS_Eval w.eng ctx (some p) (size_sub data_length 1) "<embed>" JS_EVAL_TYPE_GLOBAL
            = (ev, s1))
    (hg : E.JS_GetGlobalObject s1 ctx = (global, s2))
    (hm : E.JS_GetPropertyStr s2 ctx global ("require_" ++ s) = (module, s3))
    (hr : E.JS_Call s3 ctx module global 0 [] = (result, s4)) :
    ((commonjs_module_data_to_function E w ctx (some p) data_length s).1 ≠ JS_UNDEFINED →
        ev ≠ JS_EXCEPTION ∧ module ≠ JS_EXCEPTION ∧ result ≠ JS_EXCEPTION ∧
        (commonjs_module_data_to_function E w ctx (some p) data_length s).1 = result ∧
        (commonjs_module_data_to_function E w ctx (some p) data_length s).2.eng = s4 ∧
        (commonjs_module_data_to_function E w ctx (some p) data_length s).2.log
          = w.log ++ [Event.JS_Eval ctx (some p) (size_sub data_length 1) "<embed>"
                        JS_EVAL_TYPE_GLOBAL ev,
                      Event.JS_GetGlobalObject ctx global,
                      Event.JS_GetPropertyStr ctx global ("require_" ++ s) module,
                      Event.JS_Call ctx module global 0 [] result]) ∧
    (ev ≠ JS_EXCEPTION → module ≠ JS_EXCEPTION → result ≠ JS_EXCEPTION →
        (commonjs_module_data_to_function E w ctx (some p) data_length s).1 = result ∧
        (commonjs_module_data_to_function E w ctx (some p) data_length s).2.eng = s4 ∧
        (commonjs_module_data_to_function E w ctx (some p) data_length s).2.log
          = w.log ++ [Event.JS_Eval ctx (some p) (size_sub data_length 1) "<embed>"
                        JS_EVAL_TYPE_GLOBAL ev,
                      Event.JS_GetGlobalObject ctx global,
                      Event.JS_GetPropertyStr ctx global ("require_" ++ s) module,
                      Event.JS_Call ctx module global 0 [] result]) ∧
    (ev ≠ JS_EXCEPTION → module ≠ JS_EXCEPTION → result = JS_EXCEPTION →
        (commonjs_module_data_to_function E w ctx (some p) data_length s).1 = JS_UNDEFINED) := by
  simp only [commonjs_module_data_to_function, JS_Eval, JS_GetGlobalObject, JS_GetPropertyStr,
    JS_Call, hev, hg, hm, hr]
  cases ev <;> cases module <;> cases result <;>
    simp [JS_IsException, JS_UNDEFINED, JS_EXCEPTION]

/-- Witness of C7: on the example engine with a well-formed payload the four
answers are as named, none is the exception marker, and the loader returns the
function the factory returned (derived once from the loader not failing and once from
the engine answers alone); with a factory that raises, the loader returns the failure
value. -/
theorem C7_witness :
    (commonjs_module_data_to_function (toyEngine (goodToy addFn)) (World.init [])
        (some 200) (some 4096) 40 "foo").1 = JSValue.heap 2 ∧
    (commonjs_module_data_to_function (toyEngine (goodToy addFn)) (World.init [])
        (some 200) (some 4096) 40 "foo").2.log
      = [Event.JS_Eval (some 200) (some 4096) (size_sub 40 1) "<embed>" JS_EVAL_TYPE_GLOBAL
           JSValue.undefined,
         Event.JS_GetGlobalObject (some 200) (JSValue.heap 0),
         Event.JS_GetPropertyStr (some 200) (JSValue.heap 0) ("require_" ++ "foo")
           (JSValue.heap 1),
         Event.JS_Call (some 200) (JSValue.heap 1) (JSValue.heap 0) 0 [] (JSValue.heap 2)] ∧
    (commonjs_module_data_to_function
        (toyEngine { goodToy addFn with factory := JSValue.exception }) (World.init [])
        (some 200) (some 4096) 40 "foo").1 = JS_UNDEFINED :=
  ⟨((C7_loader_returns_factory_result (toyEngine (goodToy addFn)) (World.init []) (some 200)
      4096 40 "foo" JSValue.undefined (JSValue.heap 0) (JSValue.heap 1) (JSValue.heap 2)
      ["require_foo"] ["require_foo"] ["require_foo"] ["require_foo"]
      (by decide) (by decide) (by decide) (by decide)).1 (by decide)).2.2.2.1,
   ((C7_loader_returns_factory_result (toyEngine (goodToy addFn)) (World.init []) (some 200)
      4096 40 "foo" JSValue.undefined (JSValue.heap 0) (JSValue.heap 1) (JSValue.heap 2)
      ["require_foo"] ["require_foo"] ["require_foo"] ["require_foo"]
      (by decide) (by decide) (by decide) (by decide)).2.1
        (by decide) (by decide) (by decide)).2.2,
   (C7_loader_returns_factory_result
      (toyEngine { goodToy addFn with factory := JSValue.exception }) (World.init [])
      (some 200) 4096 40 "foo" JSValue.undefined (JSValue.heap 0) (JSValue.heap 1)
      JSValue.exception ["require_foo"] ["require_foo"] ["require_foo"] ["require_foo"]
      (by decide) (by decide) (by decide) (by decide)).2.2 (by decide) (by decide) (by decide)⟩

/-- The release operations of a record that was extended are those of its two parts. -/
theorem released_append (l1 l2 : List Event) :
    released (l1 ++ l2) = released l1 ++ released l2 := by
  induction l1 with
  | nil => rfl
  | cons e es ih => simp [released, ih]

/-- The loader records no release operation, on any path. -/
theorem loader_released (E : Engine σ) (w : World σ) (ctx : JSContextPtr) (data : DataPtr)
    (data_length : Nat) (function_name : String) :
    released (commonjs_module_data_to_function E w ctx data data_length function_name).2.log
      = released w.log := by
  cases data with
  | none => rfl
  | some p =>
    simp only [commonjs_module_data_to_function]
    split_ifs <;>
      simp [JS_Eval, JS_GetException, JS_ToCString, JS_GetGlobalObject, JS_GetPropertyStr,
        JS_Call, released_append, released, Event.releases]

/-- The helper easy_context records no engine release operation, on any path: on
context-creation failure the runtime goes to the C library free. -/
theorem easy_context_released (E : Engine σ) (w : World σ) :
    released (easy_context E w).2.log = released w.log := by
  simp only [easy_context]
  split
  · simp [JS_NewRuntime, released_append, released, Event.releases]
  · split <;>
      simp [JS_NewRuntime, JS_NewContext, libc_free, released_append, released,
        Event.releases]

/-- The entry point call_foo records no engine release operation, on any path. -/
theorem call_foo_released (E : Engine σ) (sym : EmbeddedSymbols) (w : World σ) (bar baz : Int) :
    released (call_foo E sym w bar baz).2.log = released w.log := by
  simp only [call_foo]
  split_ifs <;>
    simp [JS_ToInt32, JS_Call, loader_released, easy_context_released, JS_GetGlobalObject,
      released_append, released, Event.releases]

/-- C10, the code evaluated where the claim fails.  On the example engine with a
payload that does not parse, the loader fails (returns JS_UNDEFINED) having acquired
the exception object and its C string, and returns without releasing either; call_foo
on the same payload returns -1 with the runtime, the context, the global object, the
exception object and its C string all still held.  When context creation fails,
easy_context returns NULL after handing the runtime to the C library free: the record
holds no engine runtime-release operation and the runtime handle is still held. -/
theorem C10_failing_runs_leave_handles_held :
    (commonjs_module_data_to_function (toyEngine { goodToy addFn with parses := false })
        (World.init []) (some 200) (some 4096) 40 "foo").1 = JS_UNDEFINED ∧
    (commonjs_module_data_to_function (toyEngine { goodToy addFn with parses := false })
        (World.init []) (some 200) (some 4096) 40 "foo").2.log
      = [Event.JS_Eval (some 200) (some 4096) 39 "<embed>" JS_EVAL_TYPE_GLOBAL
           JSValue.exception,
         Event.JS_GetException (some 200) (JSValue.heap 3),
         Event.JS_ToCString (some 200) (JSValue.heap 3) (some "SyntaxError")] ∧
    dangling (commonjs_module_data_to_function (toyEngine { goodToy addFn with parses := false })
        (World.init []) (some 200) (some 4096) 40 "foo").2.log
      = [Handle.value 3, Handle.cstring "SyntaxError"] ∧
    (call_foo (toyEngine { goodToy addFn with parses := false }) sym40 (World.init [])
        3 4).1 = -1 ∧
    dangling (call_foo (toyEngine { goodToy addFn with parses := false }) sym40
        (World.init []) 3 4).2.log
      = [Handle.runtime 100, Handle.context 200, Handle.value 0, Handle.value 3,
         Handle.cstring "SyntaxError"] ∧
    (easy_context (toyEngine { goodToy addFn with contextOk := false }) (World.init [])).1
      = none ∧
    (easy_context (toyEngine { goodToy addFn with contextOk := false }) (World.init [])).2.log
      = [Event.JS_NewRuntime (some 100), Event.JS_NewContext (some 100) none,
         Event.libc_free (some 100)] ∧
    dangling (easy_context (toyEngine { goodToy addFn with contextOk := false })
        (World.init [])).2.log = [Handle.runtime 100] := by
  decide

/-- C4, the code evaluated where the claim fails.  On the example engine the payload
evaluates without exception and binds nothing, so the lookup of `require_foo` yields
undefined, not the exception marker; the test after the lookup only looks for the
exception marker, and the loader goes on to call the undefined value as a factory
(the last entry of the record).  The failure value comes from that call raising. -/
theorem C4_missing_binding_is_called :
    (commonjs_module_data_to_function (toyEngine { goodToy addFn with defines := [] })
        (World.init []) (some 200) (some 4096) 40 "foo").1 = JS_UNDEFINED ∧
    (commonjs_module_data_to_function (toyEngine { goodToy addFn with defines := [] })
        (World.init []) (some 200) (some 4096) 40 "foo").2.log
      = [Event.JS_Eval (some 200) (some 4096) 39 "<embed>" JS_EVAL_TYPE_GLOBAL
           JSValue.undefined,
         Event.JS_GetGlobalObject (some 200) (JSValue.heap 0),
         Event.JS_GetPropertyStr (some 200) (JSValue.heap 0) "require_foo" JSValue.undefined,
         Event.JS_Call (some 200) JSValue.undefined (JSValue.heap 0) 0 [] JSValue.exception] := by
  decide

/-- C5, the code evaluated where the claim fails.  On the example engine the module
loads and the function raises: the final call returns the exception marker.  The test
after the call only looks for undefined, so call_foo converts the exception marker
(the last entry of the record: return code -1, 0 stored) and returns 0, not -1. -/
theorem C5_raising_call_is_converted :
    (call_foo (toyEngine (goodToy (fun _ _ => JSValue.exception))) sym40 (World.init [])
        3 4).1 = 0 ∧
    (call_foo (toyEngine (goodToy (fun _ _ => JSValue.exception))) sym40 (World.init [])
        3 4).2.log
      = [Event.JS_NewRuntime (some 100),
         Event.JS_NewContext (some 100) (some 200),
         Event.JS_GetGlobalObject (some 200) (JSValue.heap 0),
         Event.JS_Eval (some 200) (some 4096) 39 "<embed>" JS_EVAL_TYPE_GLOBAL
           JSValue.undefined,
         Event.JS_GetGlobalObject (some 200) (JSValue.heap 0),
         Event.JS_GetPropertyStr (some 200) (JSValue.heap 0) "require_foo" (JSValue.heap 1),
         Event.JS_Call (some 200) (JSValue.heap 1) (JSValue.heap 0) 0 [] (JSValue.heap 2),
         Event.JS_Call (some 200) (JSValue.heap 2) (JSValue.heap 0) 2
           [JSValue.int32 3, JSValue.int32 4] JSValue.exception,
         Event.JS_ToInt32 (some 200) (-1) JSValue.exception (-1) 0] := by
  decide

/-- C6, the code evaluated where the claim fails.  On the example engine the function
returns a defined value that has no integer conversion (reference 4, a symbol): the
conversion fails with return code -1 and stores 0.  call_foo ignores the return code
and returns the content of the slot, 0, not -1. -/
theorem C6_failed_conversion_is_returned :
    ((toyEngine (goodToy (fun _ _ => JSValue.heap 4))).JS_ToInt32 ["require_foo"] (some 200)
        (-1) (JSValue.heap 4)).1 = (-1, 0) ∧
    (call_foo (toyEngine (goodToy (fun _ _ => JSValue.heap 4))) sym40 (World.init [])
        3 4).1 = 0 ∧
    ((call_foo (toyEngine (goodToy (fun _ _ => JSValue.heap 4))) sym40 (World.init [])
        3 4).2.log).drop 7
      = [Event.JS_Call (some 200) (JSValue.heap 2) (JSValue.heap 0) 2
           [JSValue.int32 3, JSValue.int32 4] (JSValue.heap 4),
         Event.JS_ToInt32 (some 200) (-1) (JSValue.heap 4) (-1) 0] := by
  decide

/-- C8, the code evaluated where the claim fails.  When runtime creation fails,
easy_context returns NULL without attempting context creation, but call_foo does not
test the pointer: it fetches the global object, evaluates, looks up and calls on the
NULL context.  The same happens when context creation fails. -/
theorem C8_null_context_is_used :
    (easy_context (toyEngine { goodToy addFn with runtimeOk := false }) (World.init [])).1
      = none ∧
    (call_foo (toyEngine { goodToy addFn with runtimeOk := false }) sym40 (World.init [])
        3 4).2.log
      = [Event.JS_NewRuntime none,
         Event.JS_GetGlobalObject none (JSValue.heap 0),
         Event.JS_Eval none (some 4096) 39 "<embed>" JS_EVAL_TYPE_GLOBAL JSValue.undefined,
         Event.JS_GetGlobalObject none (JSValue.heap 0),
         Event.JS_GetPropertyStr none (JSValue.heap 0) "require_foo" (JSValue.heap 1),
         Event.JS_Call none (JSValue.heap 1) (JSValue.heap 0) 0 [] (JSValue.heap 2),
         Event.JS_Call none (JSValue.heap 2) (JSValue.heap 0) 2
           [JSValue.int32 3, JSValue.int32 4] (JSValue.int32 7),
         Event.JS_ToInt32 none (-1) (JSValue.int32 7) 0 7] ∧
    (call_foo (toyEngine { goodToy addFn with runtimeOk := false }) sym40 (World.init [])
        3 4).1 = 7 ∧
    (easy_context (toyEngine { goodToy addFn with contextOk := false }) (World.init [])).1
      = none ∧
    ((call_foo (toyEngine { goodToy addFn with contextOk := false }) sym40 (World.init [])
        3 4).2.log).take 5
      = [Event.JS_NewRuntime (some 100),
         Event.JS_NewContext (some 100) none,
         Event.libc_free (some 100),
         Event.JS_GetGlobalObject none (JSValue.heap 0),
         Event.JS_Eval none (some 4096) 39 "<embed>" JS_EVAL_TYPE_GLOBAL JSValue.undefined] := by
  decide

/-- For a payload of at least one byte the length passed to the evaluation is one less
than the payload length. -/
theorem size_sub_one_of_pos (L : Nat) (h1 : 1 ≤ L) (h2 : L < SIZE_MODULUS) :
    size_sub L 1 = L - 1 := by
  unfold size_sub SIZE_MODULUS at *
  omega

/-- C9, the code evaluated where the claim fails.  For the empty payload the locator
yields length 0 (end symbol equal to start symbol), and for every engine, context,
non-null pointer and module name the first call the loader makes is an evaluation
with byte length 2^64 - 1: the unsigned subtraction wraps, and the length passed
exceeds the payload length. -/
theorem C9_empty_payload_length_wraps (E : Engine σ) (w : World σ) (ctx : JSContextPtr)
    (p : Nat) (function_name : String) :
    LDLEN symEmpty = 0 ∧
    (∃ ret rest,
      (commonjs_module_data_to_function E w ctx (some p) (LDLEN symEmpty) function_name).2.log
        = w.log ++ Event.JS_Eval ctx (some p) 18446744073709551615 "<embed>"
                      JS_EVAL_TYPE_GLOBAL ret :: rest) ∧
    ¬ (18446744073709551615 ≤ LDLEN symEmpty) := by
  have h0 : LDLEN symEmpty = 0 := by decide
  have hs : size_sub 0 1 = 18446744073709551615 := by decide
  refine ⟨h0, ?_, by rw [h0]; decide⟩
  rw [h0]
  simp only [commonjs_module_data_to_function, hs]
  split_ifs <;>
    simp [JS_Eval, JS_GetException, JS_ToCString, JS_GetGlobalObject, JS_GetPropertyStr,
      JS_Call]

end Jescx
